import Mathlib

/-!
Verification of the real-time motion-safety engine of the PhysioTwin
rehabilitation frontend.

The definitions below are shallow embeddings of the TypeScript sources:

* `components/rehab/biomechanics.ts` — joint angles, safe-range deviation,
  the green/yellow/red evaluator (`evaluateByAngle`);
* `components/rehab/bodyQuality.ts` (`PoseSession`) — the session tick logic:
  the capped event / angle-sample logs, the consecutive-pass quality and
  lighting gates, the jerk and out-of-range persistence counters feeding the
  one-shot `stopBySafety` latch, the level-hold hysteresis machine, and the
  rep counter;
* `components/rehab/motionAnalyzer.ts` — speed estimation (only its outputs
  enter the embedded machines; the stream of speeds is a parameter here).

JavaScript numbers are modelled as rationals (`ℚ`), except the joint-angle
geometry which needs `Real.sqrt` / `Real.arccos` and is modelled over `ℝ`.
Timestamps (`Date.now()` milliseconds) are `ℕ`.
-/

/-- Severity of a logged event (`"info" | "warning" | "stop"`). -/
inductive Severity where
  | info
  | warning
  | stop
deriving DecidableEq, Repr

/-- A structured telemetry event, mirroring
`{ts, severity, type, message, data?}` in `bodyQuality.ts`.  The `data`
payload is modelled as a list of numeric key/value pairs. -/
structure Event where
  ts : ℕ
  severity : Severity
  etype : String
  message : String
  data : List (String × ℚ)
deriving DecidableEq, Repr

/-- Feedback level (`"green" | "yellow" | "red"`). -/
inductive Level where
  | green
  | yellow
  | red
deriving DecidableEq, Repr

/-- `deviationFromSafeRange` from `biomechanics.ts` (lines 76–80):
returns `safeMinDeg - angleDeg` below the band, `angleDeg - safeMaxDeg`
above it, and `0` inside it. -/
def deviationFromSafeRange (angleDeg safeMinDeg safeMaxDeg : ℚ) : ℚ :=
  if angleDeg < safeMinDeg then safeMinDeg - angleDeg
  else if safeMaxDeg < angleDeg then angleDeg - safeMaxDeg
  else 0

/-- Claim C6 (counterexample): the claimed identity
`deviationFromSafeRange angle safeMin safeMax = max 0 (max (safeMin - angle) (angle - safeMax))`
is quantified over ALL inputs, but it fails when `safeMin > safeMax`:
at `angle = 9`, `safeMin = 10`, `safeMax = 0` the code takes the first
branch and returns `1`, while the max-expression evaluates to `9`. -/
theorem deviation_max_identity_cex :
    deviationFromSafeRange 9 10 0 = 1 ∧
    max (0 : ℚ) (max (10 - 9) (9 - 0)) = 9 ∧
    (1 : ℚ) ≠ 9 := by
  refine ⟨by norm_num [deviationFromSafeRange], by norm_num, by norm_num⟩

/-- Claim C6 (amended): assuming `safeMin ≤ safeMax` (the Prescription
invariant), `deviationFromSafeRange` equals `max 0 (max (safeMin - angle)
(angle - safeMax))`, is nonnegative, and vanishes exactly on the safe band. -/
theorem deviation_max_identity (a mn mx : ℚ) (h : mn ≤ mx) :
    deviationFromSafeRange a mn mx = max 0 (max (mn - a) (a - mx)) ∧
    0 ≤ deviationFromSafeRange a mn mx ∧
    (deviationFromSafeRange a mn mx = 0 ↔ mn ≤ a ∧ a ≤ mx) := by
  unfold deviationFromSafeRange
  split_ifs with h1 h2
  · refine ⟨?_, by linarith, ?_⟩
    · rw [max_eq_left (show a - mx ≤ mn - a by linarith),
        max_eq_right (show (0 : ℚ) ≤ mn - a by linarith)]
    · constructor
      · intro he; exact ⟨by linarith, by linarith⟩
      · rintro ⟨hle, -⟩; linarith
  · refine ⟨?_, by linarith, ?_⟩
    · rw [max_eq_right (show mn - a ≤ a - mx by linarith),
        max_eq_right (show (0 : ℚ) ≤ a - mx by linarith)]
    · constructor
      · intro he; exact ⟨by linarith, by linarith⟩
      · rintro ⟨-, hle⟩; linarith
  · refine ⟨?_, le_refl 0, ?_⟩
    · rw [max_eq_left (max_le (by linarith) (by linarith))]
    · simp only [eq_self_iff_true, true_iff]
      exact ⟨not_lt.mp h1, not_lt.mp h2⟩

/-- Claim C6 witness: the amended identity instantiated on the safe band
`[150, 185]` at angle `200` (deviation `15`). -/
theorem deviation_max_identity_witness :
    (150 : ℚ) ≤ 185 ∧
    (deviationFromSafeRange 200 150 185 = max 0 (max (150 - 200) (200 - 185)) ∧
      0 ≤ deviationFromSafeRange 200 150 185 ∧
      (deviationFromSafeRange 200 150 185 = 0 ↔ (150 : ℚ) ≤ 200 ∧ (200 : ℚ) ≤ 185)) :=
  ⟨by norm_num, deviation_max_identity 200 150 185 (by norm_num)⟩

/-- 2-D point, as used by `angleDeg` in `biomechanics.ts`. -/
structure Vec2R where
  x : ℝ
  y : ℝ

/-- 3-D point, as used by `angleDeg3D` in `bodyQuality.ts` (a missing `z`
is defaulted to `0` by the source, so `z` is total here). -/
structure Vec3R where
  x : ℝ
  y : ℝ
  z : ℝ

/-- The `clamp(n, a, b) = Math.min(b, Math.max(a, n))` helper from
`bodyQuality.ts`. -/
noncomputable def clampR (n a b : ℝ) : ℝ := min b (max a n)

/-- `angleDeg` from `biomechanics.ts` (lines 3–13): the angle at `b` formed
by `a-b-c`, via dot product and arc cosine; the cosine is clamped with
`Math.max(-1, Math.min(1, ·))` and a zero-magnitude bounding vector makes
the function return `0` instead of dividing by zero. -/
noncomputable def angleDeg (a b c : Vec2R) : ℝ :=
  if Real.sqrt ((a.x - b.x) * (a.x - b.x) + (a.y - b.y) * (a.y - b.y)) = 0 ∨
      Real.sqrt ((c.x - b.x) * (c.x - b.x) + (c.y - b.y) * (c.y - b.y)) = 0 then 0
  else
    Real.arccos (max (-1) (min 1
      (((a.x - b.x) * (c.x - b.x) + (a.y - b.y) * (c.y - b.y)) /
        (Real.sqrt ((a.x - b.x) * (a.x - b.x) + (a.y - b.y) * (a.y - b.y)) *
          Real.sqrt ((c.x - b.x) * (c.x - b.x) + (c.y - b.y) * (c.y - b.y)))))) * 180 / Real.pi

/-- `angleDeg3D` from `bodyQuality.ts` (lines 188–197): same formula over
3-D vectors, clamping with `clamp(·, -1, 1)`. -/
noncomputable def angleDeg3D (a b c : Vec3R) : ℝ :=
  if Real.sqrt ((a.x - b.x) * (a.x - b.x) + (a.y - b.y) * (a.y - b.y) + (a.z - b.z) * (a.z - b.z)) = 0 ∨
      Real.sqrt ((c.x - b.x) * (c.x - b.x) + (c.y - b.y) * (c.y - b.y) + (c.z - b.z) * (c.z - b.z)) = 0 then 0
  else
    Real.arccos (clampR
      (((a.x - b.x) * (c.x - b.x) + (a.y - b.y) * (c.y - b.y) + (a.z - b.z) * (c.z - b.z)) /
        (Real.sqrt ((a.x - b.x) * (a.x - b.x) + (a.y - b.y) * (a.y - b.y) + (a.z - b.z) * (a.z - b.z)) *
          Real.sqrt ((c.x - b.x) * (c.x - b.x) + (c.y - b.y) * (c.y - b.y) + (c.z - b.z) * (c.z - b.z))))
      (-1) 1) * 180 / Real.pi

/-- The arc-cosine based angle, scaled to degrees, lies in `[0, 180]`. -/
theorem arccos_deg_bounds (t : ℝ) :
    0 ≤ Real.arccos t * 180 / Real.pi ∧ Real.arccos t * 180 / Real.pi ≤ 180 := by
  constructor
  · exact div_nonneg (mul_nonneg (Real.arccos_nonneg t) (by norm_num)) Real.pi_pos.le
  · rw [div_le_iff₀ Real.pi_pos]
    have h := Real.arccos_le_pi t
    nlinarith [Real.pi_pos]

/-- Claim C10: both joint-angle functions are total functions (in this
idealized-real model there is no NaN) returning a value in `[0, 180]`;
when either bounding vector is zero (`a = b` or `c = b`) they return `0`
instead of dividing by zero; and the clamped cosine arguments always lie
in `[-1, 1]`. -/
theorem angle_functions_total_bounded :
    (∀ a b c : Vec2R, 0 ≤ angleDeg a b c ∧ angleDeg a b c ≤ 180) ∧
    (∀ b c : Vec2R, angleDeg b b c = 0) ∧
    (∀ a b : Vec2R, angleDeg a b b = 0) ∧
    (∀ a b c : Vec3R, 0 ≤ angleDeg3D a b c ∧ angleDeg3D a b c ≤ 180) ∧
    (∀ b c : Vec3R, angleDeg3D b b c = 0) ∧
    (∀ a b : Vec3R, angleDeg3D a b b = 0) ∧
    (∀ x : ℝ, -1 ≤ max (-1) (min 1 x) ∧ max (-1) (min 1 x) ≤ 1) ∧
    (∀ x : ℝ, -1 ≤ clampR x (-1) 1 ∧ clampR x (-1) 1 ≤ 1) := by
  refine ⟨?_, ?_, ?_, ?_, ?_, ?_, ?_, ?_⟩
  · intro a b c
    unfold angleDeg
    split_ifs with h
    · exact ⟨le_refl 0, by norm_num⟩
    · exact arccos_deg_bounds _
  · intro b c
    simp [angleDeg, Real.sqrt_zero]
  · intro a b
    simp [angleDeg, Real.sqrt_zero]
  · intro a b c
    unfold angleDeg3D
    split_ifs with h
    · exact ⟨le_refl 0, by norm_num⟩
    · exact arccos_deg_bounds _
  · intro b c
    simp [angleDeg3D, Real.sqrt_zero]
  · intro a b
    simp [angleDeg3D, Real.sqrt_zero]
  · intro x
    exact ⟨le_max_left _ _, max_le (by norm_num) (min_le_left _ _)⟩
  · intro x
    refine ⟨le_min (by norm_num) (le_max_left _ _), min_le_left _ _⟩

/-- The capped append used for both logs in `bodyQuality.ts`:
`const next = prev.length > CAP ? prev.slice(prev.length - CAP) : prev;
return [...next, e];` — keep the last `CAP` entries, then append. -/
def cappedAppend {α : Type} (cap : ℕ) (l : List α) (e : α) : List α :=
  (if cap < l.length then l.drop (l.length - cap) else l) ++ [e]

/-- `logEvent` from `bodyQuality.ts` (lines 529–534): capped at 500. -/
def logEvent (l : List Event) (e : Event) : List Event := cappedAppend 500 l e

/-- One entry of the ≈5 Hz angle-sample log (`bodyQuality.ts` lines 1297–1312). -/
structure AngleSample where
  ts : ℕ
  primary_angle_deg : ℚ
  compensation_angle_deg : ℚ
  speed_deg_per_sec : ℚ
  ai_confidence_pct : ℤ
deriving DecidableEq, Repr

/-- The angle-sample append from `bodyQuality.ts` (lines 1299–1311): capped
at 2000. -/
def appendAngleSample (l : List AngleSample) (s : AngleSample) : List AngleSample :=
  cappedAppend 2000 l s

/-- Length law of the capped append: one below the cap plus one. -/
theorem cappedAppend_length {α : Type} (cap : ℕ) (l : List α) (e : α) :
    (cappedAppend cap l e).length = min (l.length + 1) (cap + 1) := by
  unfold cappedAppend
  split_ifs with h <;> simp [List.length_drop] <;> omega

/-- The `session_start` info event (`bodyQuality.ts` line 1504). -/
def evStart : Event := ⟨0, Severity.info, "session_start", "Session started.", []⟩

/-- The event list after `n` successive `logEvent` appends to an empty log. -/
def eventsAfterN (e : Event) : ℕ → List Event
  | 0 => []
  | n + 1 => logEvent (eventsAfterN e n) e

/-- After `n` appends the event log holds `min n 501` entries. -/
theorem eventsAfterN_length (e : Event) : ∀ n, (eventsAfterN e n).length = min n 501 := by
  intro n
  induction n with
  | zero => simp [eventsAfterN]
  | succ n ih =>
    show (logEvent (eventsAfterN e n) e).length = min (n + 1) 501
    rw [logEvent, cappedAppend_length, ih]
    omega

/-- Claim C8 (counterexample): the event log is NOT capped at 500 — after
501 appends to an empty log it holds 501 entries, because the source only
trims when the length already exceeds 500 and then still appends. -/
theorem event_log_cap_cex : 500 < (eventsAfterN evStart 501).length := by
  rw [eventsAfterN_length]
  omega

/-- Claim C8 (amended): both logs are bounded ring buffers with oldest-first
eviction, but their tight bounds are 501 events and 2001 angle samples
(cap + 1, since the code trims to the last cap entries and then appends):
any fold of appends preserves the bound, the new entry is always last, a
full log drops from the front, and 501 is reached. -/
theorem log_buffers_bounded :
    (∀ (l es : List Event), l.length ≤ 501 → (es.foldl logEvent l).length ≤ 501) ∧
    (∀ (l ss : List AngleSample), l.length ≤ 2001 → (ss.foldl appendAngleSample l).length ≤ 2001) ∧
    (∀ (l : List Event) (e : Event), (logEvent l e).getLast? = some e) ∧
    (∀ (l : List Event) (e : Event), 500 < l.length →
      logEvent l e = l.drop (l.length - 500) ++ [e]) ∧
    (eventsAfterN evStart 501).length = 501 := by
  refine ⟨?_, ?_, ?_, ?_, ?_⟩
  · intro l es
    induction es generalizing l with
    | nil => intro h; simpa using h
    | cons e es ih =>
      intro h
      refine ih (logEvent l e) ?_
      rw [logEvent, cappedAppend_length]
      omega
  · intro l ss
    induction ss generalizing l with
    | nil => intro h; simpa using h
    | cons s ss ih =>
      intro h
      refine ih (appendAngleSample l s) ?_
      rw [appendAngleSample, cappedAppend_length]
      omega
  · intro l e
    rw [logEvent, cappedAppend]
    rw [List.getLast?_append]
    rfl
  · intro l e h
    rw [logEvent, cappedAppend, if_pos h]
  · rw [eventsAfterN_length]
    omega

/-- The per-session safety-relevant state of `PoseSession` in
`bodyQuality.ts`: the `stoppedBySafetyRef` latch, displayed level and
message, `riskEvents`, the event log, and the two persistence counters
(`outOfRangeFramesRef`, `jerkFramesRef`). -/
structure SafetyState where
  stopped : Bool
  level : Level
  message : String
  riskEvents : ℕ
  events : List Event
  outFrames : ℕ
  jerkFrames : ℕ
deriving DecidableEq, Repr

/-- Number of `safety_stop` events in a log. -/
def countStopEvents (l : List Event) : ℕ :=
  (l.filter (fun e => e.etype == "safety_stop")).length

/-- `stopBySafety` from `bodyQuality.ts` (lines 670–679).  If the latch is
already set it returns immediately; otherwise it sets the latch, switches
the level to red, sets the message, increments `riskEvents`, logs one
`safety_stop` event and (through `speakAndLog`, when the voice side effect
actually speaks — `spoken`) one `voice_alert` event.  The final
`await stop()` tears down camera/timers and is external I/O. -/
def stopBySafety (now : ℕ) (reason voiceText : String) (data : List (String × ℚ))
    (spoken : Bool) (st : SafetyState) : SafetyState :=
  if st.stopped then st
  else
    { st with
      stopped := true
      level := Level.red
      message := reason
      riskEvents := st.riskEvents + 1
      events :=
        let ev := logEvent st.events ⟨now, Severity.stop, "safety_stop", reason, data⟩
        if spoken then logEvent ev ⟨now, Severity.stop, "voice_alert", voiceText, []⟩ else ev }

/-- Claim C1: `stopBySafety` is an idempotent one-shot latch.  A call on an
already-stopped state is a strict no-op; the first call on a live state
sets the latch, logs exactly one `safety_stop` event and increments
`riskEvents` by exactly one (the log-length bound 499 rules out eviction of
an older stop event by the capped append); and a second call — e.g. a
second overlapping stop condition in the same tick — changes nothing. -/
theorem stop_latch_one_shot :
    (∀ (st : SafetyState) (now : ℕ) (r v : String) (d : List (String × ℚ)) (sp : Bool),
      st.stopped = true → stopBySafety now r v d sp st = st) ∧
    (∀ (st : SafetyState) (now : ℕ) (r v : String) (d : List (String × ℚ)) (sp : Bool),
      st.stopped = false → st.events.length ≤ 499 →
      (stopBySafety now r v d sp st).stopped = true ∧
      (stopBySafety now r v d sp st).riskEvents = st.riskEvents + 1 ∧
      countStopEvents (stopBySafety now r v d sp st).events = countStopEvents st.events + 1) ∧
    (∀ (st : SafetyState) (n₁ n₂ : ℕ) (r₁ v₁ r₂ v₂ : String)
      (d₁ d₂ : List (String × ℚ)) (s₁ s₂ : Bool),
      stopBySafety n₂ r₂ v₂ d₂ s₂ (stopBySafety n₁ r₁ v₁ d₁ s₁ st) =
        stopBySafety n₁ r₁ v₁ d₁ s₁ st) := by
  refine ⟨?_, ?_, ?_⟩
  · intro st now r v d sp h
    simp [stopBySafety, h]
  · intro st now r v d sp h hlen
    have h1 : ¬ (500 < st.events.length) := by omega
    have h2 : ¬ (500 < st.events.length + 1) := by omega
    cases sp with
    | false =>
      refine ⟨by simp [stopBySafety, h], by simp [stopBySafety, h], ?_⟩
      simp [stopBySafety, h, countStopEvents, logEvent, cappedAppend, h1, List.filter_append]
    | true =>
      refine ⟨by simp [stopBySafety, h], by simp [stopBySafety, h], ?_⟩
      simp [stopBySafety, h, countStopEvents, logEvent, cappedAppend, h1, h2, List.filter_append]
  · intro st n₁ n₂ r₁ v₁ r₂ v₂ d₁ d₂ s₁ s₂
    cases hs : st.stopped with
    | true => simp [stopBySafety, hs]
    | false => simp [stopBySafety, hs]

/-- Claim C1 witness: the latch theorem applied to a fresh session state
with one pain stop. -/
theorem stop_latch_one_shot_witness :
    ((⟨false, Level.yellow, "", 0, [], 0, 0⟩ : SafetyState).stopped = false ∧
      (⟨false, Level.yellow, "", 0, [], 0, 0⟩ : SafetyState).events.length ≤ 499) ∧
    ((stopBySafety 1000 "Pain is high. Stop and rest." "Stop now. Rest." [("pain", 8)] false
        ⟨false, Level.yellow, "", 0, [], 0, 0⟩).stopped = true ∧
      (stopBySafety 1000 "Pain is high. Stop and rest." "Stop now. Rest." [("pain", 8)] false
        ⟨false, Level.yellow, "", 0, [], 0, 0⟩).riskEvents = 0 + 1 ∧
      countStopEvents (stopBySafety 1000 "Pain is high. Stop and rest." "Stop now. Rest."
        [("pain", 8)] false ⟨false, Level.yellow, "", 0, [], 0, 0⟩).events =
        countStopEvents (⟨false, Level.yellow, "", 0, [], 0, 0⟩ : SafetyState).events + 1) :=
  ⟨⟨rfl, by simp⟩,
    stop_latch_one_shot.2.1 ⟨false, Level.yellow, "", 0, [], 0, 0⟩ 1000
      "Pain is high. Stop and rest." "Stop now. Rest." [("pain", 8)] false rfl (by simp)⟩

/-- `Number(x.toFixed(1))` as used for `deviation_deg` in the stop event
payload (`bodyQuality.ts` line 1355): round to one decimal place. -/
def round1 (x : ℚ) : ℚ := ((round (10 * x) : ℤ) : ℚ) / 10

/-- One tick of the sustained out-of-range governor
(`bodyQuality.ts` lines 1345–1361).  Only runs while the exercise is
active; increments the persistence counter (capped at 20) when the
deviation STRICTLY exceeds `deviationStopDeg`, resets it below
`max 0 (stop − 2)` (hysteresis), and fires `stopBySafety` when the counter
reaches 10, resetting the counter first as the source does. -/
def outOfRangeTick (safeMin safeMax stopDeg : ℚ) (active : Bool) (angle : ℚ) (now : ℕ)
    (st : SafetyState) : SafetyState :=
  if active then
    let dev := deviationFromSafeRange angle safeMin safeMax
    let frames :=
      if stopDeg < dev then min 20 (st.outFrames + 1)
      else if dev < max 0 (stopDeg - 2) then 0
      else st.outFrames
    if 10 ≤ frames then
      stopBySafety now "Outside safe range. Stop and rest." "Stop now. Rest."
        [("deviation_deg", round1 dev), ("safe_min_deg", safeMin), ("safe_max_deg", safeMax)]
        false { st with outFrames := 0 }
    else { st with outFrames := frames }
  else st

/-- A run of out-of-range governor ticks over `(angle, timestamp)` frames,
all with the exercise active. -/
def runOutOfRange (safeMin safeMax stopDeg : ℚ) (st : SafetyState)
    (frames : List (ℚ × ℕ)) : SafetyState :=
  frames.foldl (fun s f => outOfRangeTick safeMin safeMax stopDeg true f.1 f.2 s) st

/-- A live session state before any event. -/
def freshSafetyState : SafetyState := ⟨false, Level.yellow, "", 0, [], 0, 0⟩

/-- `n` consecutive active frames holding at `angle` (the counter logic is
time-independent, so the timestamps are all 0). -/
def holdAt (angle : ℚ) (n : ℕ) : List (ℚ × ℕ) := List.replicate n (angle, 0)

/-- Claim C2 (counterexample): with safe range `[150, 185]` and
`deviationStopDeg = 15`, holding at `200°` for 10 consecutive active frames
logs NO stop event at all: the deviation is exactly `15`, the counter
increments only when `deviation > 15` (strict), so it never moves and the
claimed single stop event with `deviation_deg = 15` does not occur. -/
theorem sustained_deviation_boundary_cex :
    deviationFromSafeRange 200 150 185 = 15 ∧
    countStopEvents (runOutOfRange 150 185 15 freshSafetyState (holdAt 200 10)).events = 0 ∧
    (runOutOfRange 150 185 15 freshSafetyState (holdAt 200 10)).stopped = false := by
  refine ⟨by norm_num [deviationFromSafeRange], ?_, ?_⟩ <;>
    norm_num [runOutOfRange, outOfRangeTick, stopBySafety, deviationFromSafeRange, holdAt,
      freshSafetyState, countStopEvents, logEvent, cappedAppend, round1, List.replicate]

/-- Claim C2 (amended): at the boundary angle `200°` (deviation exactly 15)
no stop fires, because the counter requires a STRICT exceedance; holding
just beyond the threshold, at `201°` (deviation `16 > 15`), for 10
consecutive active frames fires exactly one stop event carrying
`deviation_deg = 16` — and still exactly one over 22 frames, the latch
blocking the second trigger at frame 20. -/
theorem sustained_deviation_strict_stop :
    countStopEvents (runOutOfRange 150 185 15 freshSafetyState (holdAt 200 10)).events = 0 ∧
    countStopEvents (runOutOfRange 150 185 15 freshSafetyState (holdAt 201 22)).events = 1 ∧
    (runOutOfRange 150 185 15 freshSafetyState (holdAt 201 22)).events.filter
        (fun e => e.etype == "safety_stop") =
      [⟨0, Severity.stop, "safety_stop", "Outside safe range. Stop and rest.",
        [("deviation_deg", 16), ("safe_min_deg", 150), ("safe_max_deg", 185)]⟩] ∧
    (runOutOfRange 150 185 15 freshSafetyState (holdAt 201 22)).riskEvents = 1 ∧
    (runOutOfRange 150 185 15 freshSafetyState (holdAt 201 22)).stopped = true := by
  refine ⟨?_, ?_, ?_, ?_, ?_⟩ <;>
    norm_num [runOutOfRange, outOfRangeTick, stopBySafety, deviationFromSafeRange, holdAt,
      freshSafetyState, countStopEvents, logEvent, cappedAppend, round1, List.replicate]

/-- The jerk persistence-counter update from `bodyQuality.ts`
(lines 1316–1318): increment (capped at 10) when the speed magnitude
STRICTLY exceeds 160°/s, reset to 0 only when it drops STRICTLY below
140°/s (hysteresis), otherwise keep the counter. -/
def jerkUpdate (c : ℕ) (speedAbs : ℚ) : ℕ :=
  if 160 < speedAbs then min 10 (c + 1)
  else if speedAbs < 140 then 0
  else c

/-- Scan a stream of active-frame speed magnitudes with the jerk counter
(`bodyQuality.ts` lines 1314–1328), returning the index of the frame on
which the safety stop fires (the updated counter reaches 3), if any. -/
def jerkStopSearch : ℕ → ℕ → List ℚ → Option ℕ
  | _, _, [] => none
  | c, i, s :: rest =>
    let cNew := jerkUpdate c s
    if 3 ≤ cNew then some i else jerkStopSearch cNew (i + 1) rest

/-- Specification-side counting: the index of the `k`-th frame whose speed
magnitude strictly exceeds 160°/s ("qualifying frame"), starting at
index `i`. -/
def specNthOver160 : ℕ → ℕ → List ℚ → Option ℕ
  | _, _, [] => none
  | k, i, s :: rest =>
    if 160 < s then
      if k ≤ 1 then some i else specNthOver160 (k - 1) (i + 1) rest
    else specNthOver160 k (i + 1) rest

/-- As long as no frame drops below 140°/s, the jerk machine started with
counter `c ≤ 2` stops exactly on the `(3 − c)`-th qualifying frame. -/
theorem jerkStopSearch_eq_specNth (l : List ℚ) :
    ∀ (c i : ℕ), c ≤ 2 → (∀ s ∈ l, 140 ≤ s) →
    jerkStopSearch c i l = specNthOver160 (3 - c) i l := by
  induction l with
  | nil => intro c i _ _; rfl
  | cons s rest ih =>
    intro c i hc hmem
    have hs : (140 : ℚ) ≤ s := hmem s (List.mem_cons_self s rest)
    have hrest : ∀ x ∈ rest, (140 : ℚ) ≤ x := fun x hx => hmem x (List.mem_cons_of_mem s hx)
    by_cases hfast : (160 : ℚ) < s
    · have hupd : jerkUpdate c s = c + 1 := by
        rw [jerkUpdate, if_pos hfast]
        omega
      rw [jerkStopSearch, specNthOver160, hupd, if_pos hfast]
      by_cases hfire : 3 ≤ c + 1
      · rw [if_pos hfire, if_pos (by omega : 3 - c ≤ 1)]
      · rw [if_neg hfire, if_neg (by omega : ¬ 3 - c ≤ 1),
          ih (c + 1) (i + 1) (by omega) hrest, Nat.sub_sub]
    · have hupd : jerkUpdate c s = c := by
        rw [jerkUpdate, if_neg hfast, if_neg (by linarith : ¬ s < 140)]
      rw [jerkStopSearch, specNthOver160, hupd, if_neg hfast,
        if_neg (by omega : ¬ 3 ≤ c), ih c (i + 1) hc hrest]

/-- Claim C3: while active, the jerk counter increments exactly on frames
with speed magnitude `> 160°/s`, resets only on frames `< 140°/s`, keeps
its value in between, and — on any stream that never drops below 140°/s —
the safety stop fires exactly on the 3rd qualifying frame. -/
theorem jerk_hysteresis_stop :
    (∀ l : List ℚ, (∀ s ∈ l, 140 ≤ s) → jerkStopSearch 0 0 l = specNthOver160 3 0 l) ∧
    (∀ (c : ℕ) (s : ℚ), s < 140 → jerkUpdate c s = 0) ∧
    (∀ (c : ℕ) (s : ℚ), 140 ≤ s → s ≤ 160 → jerkUpdate c s = c) ∧
    (∀ (c : ℕ) (s : ℚ), 160 < s → jerkUpdate c s = min 10 (c + 1)) := by
  refine ⟨?_, ?_, ?_, ?_⟩
  · intro l hmem
    exact jerkStopSearch_eq_specNth l 0 0 (by omega) hmem
  · intro c s h
    rw [jerkUpdate, if_neg (by linarith : ¬ (160 : ℚ) < s), if_pos h]
  · intro c s h1 h2
    rw [jerkUpdate, if_neg (by linarith : ¬ (160 : ℚ) < s), if_neg (by linarith : ¬ s < 140)]
  · intro c s h
    rw [jerkUpdate, if_pos h]

/-- Claim C3 witness: the oscillating sequence 170, 150, 170, 150, 170, 150
(never below 140°/s) never resets the counter; the stop fires at index 4 —
the 3rd frame above 160°/s. -/
theorem jerk_hysteresis_stop_witness :
    (∀ s ∈ ([170, 150, 170, 150, 170, 150] : List ℚ), (140 : ℚ) ≤ s) ∧
    jerkStopSearch 0 0 ([170, 150, 170, 150, 170, 150] : List ℚ) =
      specNthOver160 3 0 ([170, 150, 170, 150, 170, 150] : List ℚ) ∧
    jerkStopSearch 0 0 ([170, 150, 170, 150, 170, 150] : List ℚ) = some 4 :=
  ⟨by intro s hs; fin_cases hs <;> norm_num,
    jerk_hysteresis_stop.1 [170, 150, 170, 150, 170, 150]
      (by intro s hs; fin_cases hs <;> norm_num),
    by norm_num [jerkStopSearch, jerkUpdate]⟩

/-- State of the UI/voice level hysteresis (`levelHoldRef` in
`bodyQuality.ts`): a pending proposed level with the time it was first
proposed, and the committed level. -/
structure LevelHold where
  proposed : Option Level
  since : ℕ
  committed : Level
deriving DecidableEq, Repr

/-- The hold windows from `bodyQuality.ts` lines 1239–1246: red commits
with zero hold, yellow→green waits 650 ms, green→yellow waits 250 ms,
anything else 350 ms. -/
def holdMs (committed desired : Level) : ℕ :=
  if desired = Level.red then 0
  else if committed = Level.yellow ∧ desired = Level.green then 650
  else if committed = Level.green ∧ desired = Level.yellow then 250
  else 350

/-- One tick of the level-hold machine (`bodyQuality.ts` lines 1247–1265):
red commits immediately; a differing non-red desired level is first
proposed (recording `now`), then committed once it has been pending for
its hold window; re-proposing a different level restarts the window; a
desired level equal to the committed one clears any pending proposal. -/
def levelHoldStep (st : LevelHold) (desired : Level) (now : ℕ) : LevelHold :=
  if desired = Level.red then ⟨none, 0, Level.red⟩
  else if st.committed ≠ desired then
    if st.proposed ≠ some desired then ⟨some desired, now, st.committed⟩
    else if holdMs st.committed desired ≤ now - st.since then ⟨none, 0, desired⟩
    else st
  else ⟨none, 0, st.committed⟩

/-- Feed a list of `(desired, now)` ticks through the level-hold machine. -/
def runLevelHold : LevelHold → List (Level × ℕ) → LevelHold
  | st, [] => st
  | st, t :: rest => runLevelHold (levelHoldStep st t.1 t.2) rest

/-- Once a non-red level is committed, further ticks proposing it keep it. -/
theorem runLevelHold_stable (d : Level) (hd : d ≠ Level.red) :
    ∀ (ts : List ℕ) (st : LevelHold), st.committed = d →
    (runLevelHold st (ts.map (fun t => (d, t)))).committed = d := by
  intro ts
  induction ts with
  | nil => intro st h; simpa [runLevelHold] using h
  | cons t rest ih =>
    intro st h
    show (runLevelHold (levelHoldStep st d t) (rest.map (fun t => (d, t)))).committed = d
    exact ih _ (by simp [levelHoldStep, hd, h])

/-- A pending proposal `d` (proposed at `t0`, against committed `c ≠ d`)
commits along a run of `d`-ticks exactly when some tick time clears the
hold window measured from `t0`. -/
theorem runLevelHold_pending (c d : Level) (hd : d ≠ Level.red) (hcd : c ≠ d) (t0 : ℕ) :
    ∀ ts : List ℕ,
    (runLevelHold ⟨some d, t0, c⟩ (ts.map (fun t => (d, t)))).committed =
      (if ts.any (fun t => decide (holdMs c d ≤ t - t0)) then d else c) := by
  intro ts
  induction ts with
  | nil => simp [runLevelHold]
  | cons t rest ih =>
    show (runLevelHold (levelHoldStep ⟨some d, t0, c⟩ d t) (rest.map (fun t => (d, t)))).committed = _
    by_cases hw : holdMs c d ≤ t - t0
    · have hstep : levelHoldStep ⟨some d, t0, c⟩ d t = ⟨none, 0, d⟩ := by
        simp [levelHoldStep, hd, hcd, hw]
      rw [hstep, runLevelHold_stable d hd rest ⟨none, 0, d⟩ rfl]
      simp [hw]
    · have hstep : levelHoldStep ⟨some d, t0, c⟩ d t = ⟨some d, t0, c⟩ := by
        simp [levelHoldStep, hd, hcd, hw]
      rw [hstep, ih]
      simp [hw]

/-- Claim C5: per tick of the level-hold machine, red commits immediately
(zero hold); from a cleared state, a differing non-red level proposed at
`t0` and repeated commits exactly when a tick clears its hold window
(650 ms for yellow→green, 250 ms for green→yellow, 350 ms otherwise,
measured from `t0`); an interrupting different proposal restarts the
window without committing. -/
theorem level_hold_transitions :
    (∀ (st : LevelHold) (t : ℕ), levelHoldStep st Level.red t = ⟨none, 0, Level.red⟩) ∧
    (∀ (c d : Level) (t0 : ℕ) (ts : List ℕ), d ≠ Level.red → c ≠ d →
      (runLevelHold ⟨none, 0, c⟩ ((d, t0) :: ts.map (fun t => (d, t)))).committed =
        (if ts.any (fun t => decide (holdMs c d ≤ t - t0)) then d else c)) ∧
    (∀ (c d dNew : Level) (t0 t : ℕ), dNew ≠ Level.red → dNew ≠ c → dNew ≠ d →
      levelHoldStep ⟨some d, t0, c⟩ dNew t = ⟨some dNew, t, c⟩) ∧
    (holdMs Level.yellow Level.green = 650 ∧ holdMs Level.green Level.yellow = 250 ∧
      holdMs Level.red Level.green = 350 ∧ holdMs Level.red Level.yellow = 350 ∧
      holdMs Level.yellow Level.red = 0 ∧ holdMs Level.green Level.red = 0) := by
  refine ⟨?_, ?_, ?_, by decide⟩
  · intro st t
    simp [levelHoldStep]
  · intro c d t0 ts hd hcd
    show (runLevelHold (levelHoldStep ⟨none, 0, c⟩ d t0) (ts.map (fun t => (d, t)))).committed = _
    have hstep : levelHoldStep ⟨none, 0, c⟩ d t0 = ⟨some d, t0, c⟩ := by
      simp [levelHoldStep, hd, hcd]
    rw [hstep, runLevelHold_pending c d hd hcd t0 ts]
  · intro c d dNew t0 t h1 h2 h3
    simp [levelHoldStep, h1, Ne.symm h2, Ne.symm h3]

/-- Claim C5 witness: committed yellow, green proposed at 1000 ms; at
1200 ms (200 ms pending, below the 650 ms yellow→green window) it has not
committed; at 1700 ms (700 ms pending) it commits. -/
theorem level_hold_transitions_witness :
    Level.green ≠ Level.red ∧ Level.yellow ≠ Level.green ∧
    (runLevelHold ⟨none, 0, Level.yellow⟩
        ((Level.green, 1000) :: ([1200, 1700] : List ℕ).map (fun t => (Level.green, t)))).committed
      = Level.green ∧
    (runLevelHold ⟨none, 0, Level.yellow⟩
        ((Level.green, 1000) :: ([1200] : List ℕ).map (fun t => (Level.green, t)))).committed
      = Level.yellow := by
  refine ⟨by decide, by decide, ?_, ?_⟩
  · rw [level_hold_transitions.2.1 Level.yellow Level.green 1000 [1200, 1700]
      (by decide) (by decide)]
    decide
  · rw [level_hold_transitions.2.1 Level.yellow Level.green 1000 [1200]
      (by decide) (by decide)]
    decide

/-- One update of a consecutive-pass counter as in `bodyQuality.ts`:
`if ok then Math.min(cap, c + 1) else 0` (cap 30 for the body-quality
counter at lines 959–960, cap 20 for the lighting counter at
lines 933–934). -/
def gateStep (cap c : ℕ) (ok : Bool) : ℕ :=
  if ok then min cap (c + 1) else 0

/-- Run a consecutive-pass counter from `c` over a stream of per-frame
pass/fail results. -/
def runGateFrom (cap c : ℕ) (l : List Bool) : ℕ :=
  l.foldl (gateStep cap) c

/-- The counter for a stream starting from a reset session (counter 0). -/
def runGate (cap : ℕ) (l : List Bool) : ℕ := runGateFrom cap 0 l

/-- `qualityStableOk` (`bodyQuality.ts` line 961): the body-quality gate is
open when the counter has reached 8. -/
def qualityStableOk (c : ℕ) : Bool := 8 ≤ c

/-- `lightingStableOk` (`bodyQuality.ts` lines 941 and 962): the lighting
gate is open when the counter has reached 3. -/
def lightingStableOk (c : ℕ) : Bool := 3 ≤ c

/-- Length of the trailing run of `true`s of a stream (the number of
consecutive passing frames at its end). -/
def leadingTrueRun : List Bool → ℕ
  | [] => 0
  | true :: rest => leadingTrueRun rest + 1
  | false :: _ => 0

/-- Trailing run of `true`s. -/
def trailingTrueRun (l : List Bool) : ℕ := leadingTrueRun l.reverse

/-- Appending a failing frame zeroes the trailing run. -/
theorem trailingTrueRun_concat_false (l : List Bool) :
    trailingTrueRun (l ++ [false]) = 0 := by
  simp [trailingTrueRun, leadingTrueRun]

/-- Appending a passing frame extends the trailing run. -/
theorem trailingTrueRun_concat_true (l : List Bool) :
    trailingTrueRun (l ++ [true]) = trailingTrueRun l + 1 := by
  simp [trailingTrueRun, leadingTrueRun]

/-- The trailing run never exceeds the stream length. -/
theorem trailingTrueRun_le_length (l : List Bool) : trailingTrueRun l ≤ l.length := by
  rw [trailingTrueRun, ← List.length_reverse]
  induction l.reverse with
  | nil => simp [leadingTrueRun]
  | cons b rest ih =>
    cases b
    · simp [leadingTrueRun]
    · simp only [leadingTrueRun, List.length_cons]
      omega

/-- A passing frame bumps the counter, up to the cap. -/
theorem gateStep_true (cap x : ℕ) : gateStep cap x true = min cap (x + 1) := by
  simp [gateStep]

/-- A failing frame resets the counter. -/
theorem gateStep_false (cap x : ℕ) : gateStep cap x false = 0 := by
  simp [gateStep]

/-- Closed form of the consecutive-pass counter: starting from `c ≤ cap`,
it equals the capped trailing run of passes, except that a stream of
nothing but passes also carries the initial credit `c`. -/
theorem runGateFrom_eq (cap : ℕ) (l : List Bool) :
    ∀ c : ℕ, c ≤ cap →
    runGateFrom cap c l =
      (if trailingTrueRun l = l.length then min cap (c + l.length) else min cap (trailingTrueRun l)) := by
  induction l using List.reverseRecOn with
  | nil => intro c hc; simpa [runGateFrom, trailingTrueRun, leadingTrueRun] using by omega
  | append_singleton l b ih =>
    intro c hc
    have hstep : runGateFrom cap c (l ++ [b]) = gateStep cap (runGateFrom cap c l) b := by
      simp [runGateFrom, List.foldl_append]
    cases b with
    | false =>
      rw [hstep, gateStep_false, trailingTrueRun_concat_false]
      have hlen : ¬ ((0 : ℕ) = (l ++ [false]).length) := by simp
      rw [if_neg hlen]
      simp
    | true =>
      rw [hstep, gateStep_true, ih c hc, trailingTrueRun_concat_true]
      have htle := trailingTrueRun_le_length l
      by_cases hall : trailingTrueRun l = l.length
      · rw [if_pos hall,
          if_pos (show trailingTrueRun l + 1 = (l ++ [true]).length by simp [hall])]
        simp only [List.length_append, List.length_singleton]
        omega
      · rw [if_neg hall,
          if_neg (show ¬ (trailingTrueRun l + 1 = (l ++ [true]).length) by simp; omega)]
        omega

/-- Claim C7: from a reset counter, the body-quality gate is open exactly
when the stream ends in at least 8 consecutive ok frames, and the lighting
gate exactly when it ends in at least 3 consecutive passing probes; a
single failing frame at the end closes both gates (counter reset to 0). -/
theorem consecutive_pass_gates :
    (∀ l : List Bool, runGate 30 l = min 30 (trailingTrueRun l)) ∧
    (∀ l : List Bool, runGate 20 l = min 20 (trailingTrueRun l)) ∧
    (∀ l : List Bool, qualityStableOk (runGate 30 l) = true ↔ 8 ≤ trailingTrueRun l) ∧
    (∀ l : List Bool, lightingStableOk (runGate 20 l) = true ↔ 3 ≤ trailingTrueRun l) ∧
    (∀ l : List Bool, runGate 30 (l ++ [false]) = 0 ∧ runGate 20 (l ++ [false]) = 0) := by
  have key : ∀ (cap : ℕ) (l : List Bool), 0 < cap → runGate cap l = min cap (trailingTrueRun l) := by
    intro cap l hcap
    rw [runGate, runGateFrom_eq cap l 0 (by omega)]
    by_cases hall : trailingTrueRun l = l.length
    · rw [if_pos hall, hall]
      omega
    · rw [if_neg hall]
  refine ⟨fun l => key 30 l (by omega), fun l => key 20 l (by omega), ?_, ?_, ?_⟩
  · intro l
    rw [key 30 l (by omega)]
    have := trailingTrueRun_le_length l
    simp only [qualityStableOk, decide_eq_true_eq]
    omega
  · intro l
    rw [key 20 l (by omega)]
    simp only [lightingStableOk, decide_eq_true_eq]
    omega
  · intro l
    constructor <;>
      rw [key _ _ (by omega), trailingTrueRun_concat_false] <;> simp

/-- Claim C7 witness: 7 consecutive ok frames leave the body-quality gate
closed; the 8th consecutive ok frame opens it; a failing frame after 7 ok
frames resets the counter to zero.  The gate openness is computed through
the closed form of `consecutive_pass_gates`. -/
theorem consecutive_pass_gates_witness :
    qualityStableOk (runGate 30 (List.replicate 7 true)) = false ∧
    (qualityStableOk (runGate 30 (List.replicate 8 true)) = true ↔
      8 ≤ trailingTrueRun (List.replicate 8 true)) ∧
    qualityStableOk (runGate 30 (List.replicate 8 true)) = true ∧
    runGate 30 (List.replicate 7 true ++ [false]) = 0 ∧
    lightingStableOk (runGate 20 (List.replicate 3 true)) = true := by
  refine ⟨by decide, consecutive_pass_gates.2.2.1 (List.replicate 8 true), by decide, ?_, by decide⟩
  exact (consecutive_pass_gates.2.2.2.2 (List.replicate 7 true)).1

/-- `ExerciseTargets` from `biomechanics.ts`: ideal and safe bands plus the
optional fixed compensation threshold (set to 55 by
`deriveTargetsFromPrescription`). -/
structure ExerciseTargets where
  idealMinDeg : ℚ
  idealMaxDeg : ℚ
  safeMinDeg : ℚ
  safeMaxDeg : ℚ
  compensationHipMinDeg : Option ℚ
deriving DecidableEq, Repr

/-- The `flags` record of `RehabFeedback`. -/
structure RehabFlags where
  outOfRange : Bool
  compensation : Bool
deriving DecidableEq, Repr

/-- `RehabFeedback` from `biomechanics.ts`. -/
structure RehabFeedback where
  level : Level
  message : String
  primaryAngleDeg : ℚ
  deviationDeg : ℚ
  flags : RehabFlags
deriving DecidableEq, Repr

/-- The per-module coaching strings passed to `evaluateByAngle`. -/
structure Coaching where
  ok : String
  warn : String
  stop : String
  compensation : String
deriving DecidableEq, Repr

/-- The knee-extension coaching strings (`evaluateKneeExtension`). -/
def kneeCoaching : Coaching :=
  ⟨"Good movement. Continue slowly.",
    "Your knee angle is outside the safe range. Please slow down your movement.",
    "Your knee angle is outside the safe range. Stop the exercise now and take a short rest.",
    "Deviation detected. Clinician review recommended."⟩

/-- `evaluateByAngle` from `biomechanics.ts` (lines 82–141).  The
compensation flag is ONLY `compensationAngleDeg < compensationHipMinDeg`
(both present); a missing `deviationStopDeg` defaults to 15. -/
def evaluateByAngle (primaryAngleDeg : ℚ) (compensationAngleDeg : Option ℚ)
    (targets : ExerciseTargets) (deviationStopDeg : Option ℚ) (co : Coaching) : RehabFeedback :=
  if deviationStopDeg.getD 15 <
      deviationFromSafeRange primaryAngleDeg targets.safeMinDeg targets.safeMaxDeg ∨
      ((match compensationAngleDeg, targets.compensationHipMinDeg with
        | some ca, some th => decide (ca < th)
        | _, _ => false) = true ∧
        0 < deviationFromSafeRange primaryAngleDeg targets.safeMinDeg targets.safeMaxDeg) then
    { level := Level.red
      message :=
        if deviationStopDeg.getD 15 <
            deviationFromSafeRange primaryAngleDeg targets.safeMinDeg targets.safeMaxDeg then
          co.stop
        else "Deviation detected. Clinician review recommended."
      primaryAngleDeg := primaryAngleDeg
      deviationDeg := deviationFromSafeRange primaryAngleDeg targets.safeMinDeg targets.safeMaxDeg
      flags :=
        ⟨true,
          match compensationAngleDeg, targets.compensationHipMinDeg with
          | some ca, some th => decide (ca < th)
          | _, _ => false⟩ }
  else if primaryAngleDeg < targets.safeMinDeg ∨ targets.safeMaxDeg < primaryAngleDeg then
    { level := Level.yellow
      message := co.warn
      primaryAngleDeg := primaryAngleDeg
      deviationDeg := deviationFromSafeRange primaryAngleDeg targets.safeMinDeg targets.safeMaxDeg
      flags :=
        ⟨true,
          match compensationAngleDeg, targets.compensationHipMinDeg with
          | some ca, some th => decide (ca < th)
          | _, _ => false⟩ }
  else if (primaryAngleDeg < targets.idealMinDeg ∨ targets.idealMaxDeg < primaryAngleDeg) ∨
      (match compensationAngleDeg, targets.compensationHipMinDeg with
        | some ca, some th => decide (ca < th)
        | _, _ => false) = true then
    { level := Level.yellow
      message :=
        if (match compensationAngleDeg, targets.compensationHipMinDeg with
            | some ca, some th => decide (ca < th)
            | _, _ => false) = true then
          co.compensation
        else "Please slow down your movement."
      primaryAngleDeg := primaryAngleDeg
      deviationDeg := 0
      flags :=
        ⟨false,
          match compensationAngleDeg, targets.compensationHipMinDeg with
          | some ca, some th => decide (ca < th)
          | _, _ => false⟩ }
  else
    { level := Level.green
      message := co.ok
      primaryAngleDeg := primaryAngleDeg
      deviationDeg := 0
      flags := ⟨false, false⟩ }

/-- `baselineCompensation` from `bodyQuality.ts` (lines 1018–1019): with a
calibrated trunk baseline, flag a departure of more than 12°. -/
def baselineCompensation (baselineTrunk : Option ℚ) (compAngleDeg : ℚ) : Bool :=
  match baselineTrunk with
  | some b => decide (12 < |compAngleDeg - b|)
  | none => false

/-- The compensation input actually handed to `buildGuidance`
(`bodyQuality.ts` line 1162): `!!fb.flags?.compensation || baselineCompensation`. -/
def guidanceCompensation (fb : RehabFeedback) (baselineComp : Bool) : Bool :=
  fb.flags.compensation || baselineComp

/-- Claim C9 (counterexample): the biomechanics evaluator's compensation
flag is NOT the claimed disjunction.  With secondary angle 80° (not below
the 55° threshold) and calibrated baseline 60° (departure 20° > 12°), the
claim says the evaluator's flag is true, but `evaluateByAngle` returns
`compensation = false`: the baseline-departure test lives outside the
evaluator, as `baselineCompensation`, and only reaches the guidance
composition. -/
theorem compensation_flag_cex :
    (evaluateByAngle 170 (some 80) ⟨162, 180, 150, 185, some 55⟩ (some 15)
        kneeCoaching).flags.compensation = false ∧
    baselineCompensation (some 60) 80 = true ∧
    ¬ ((80 : ℚ) < 55) ∧
    guidanceCompensation
      (evaluateByAngle 170 (some 80) ⟨162, 180, 150, 185, some 55⟩ (some 15) kneeCoaching)
      (baselineCompensation (some 60) 80) = true := by
  refine ⟨?_, ?_, by norm_num, ?_⟩ <;>
    norm_num [evaluateByAngle, deviationFromSafeRange, baselineCompensation,
      guidanceCompensation, kneeCoaching]

/-- Claim C9 (amended): the evaluator's own compensation flag is exactly
`secondaryAngle < threshold` (55° as configured); the baseline-departure
test `|secondary − baseline| > 12` is the separate session-level
`baselineCompensation` flag; their disjunction is what the session feeds
into the guidance builder. -/
theorem compensation_flag_amended :
    (∀ (p ca th imin imax smin smax : ℚ) (dstop : Option ℚ) (co : Coaching),
      (evaluateByAngle p (some ca) ⟨imin, imax, smin, smax, some th⟩ dstop co).flags.compensation
        = decide (ca < th)) ∧
    (∀ (b ca : ℚ), baselineCompensation (some b) ca = decide (12 < |ca - b|)) ∧
    (∀ ca : ℚ, baselineCompensation none ca = false) ∧
    (∀ (fb : RehabFeedback) (bc : Bool),
      guidanceCompensation fb bc = (fb.flags.compensation || bc)) := by
  refine ⟨?_, fun b ca => rfl, fun ca => rfl, fun fb bc => rfl⟩
  intro p ca th imin imax smin smax dstop co
  unfold evaluateByAngle
  split_ifs with h1 hm1 h2 h3 hm2
  · rfl
  · rfl
  · rfl
  · rfl
  · rfl
  · simp only [not_or, decide_eq_true_eq] at h3
    simp [h3.2]

/-- Phase of the rep tracker (`repTrackerRef.state` in `bodyQuality.ts`). -/
inductive RepPhase where
  | low
  | high
deriving DecidableEq, Repr

/-- `repTrackerRef` state: phase plus the minimum and maximum primary angle
seen during the current cycle. -/
structure RepTracker where
  phase : RepPhase
  minSeen : Option ℚ
  maxSeen : Option ℚ
deriving DecidableEq, Repr

/-- Rep-counting state: the tracker, the time of the last counted rep
(`repLastAtRef`) and the count (`repsCompleted`). -/
structure RepCountState where
  tracker : RepTracker
  repLastAt : ℕ
  repsCompleted : ℕ
deriving DecidableEq, Repr

/-- The cycle minimum after folding in this frame's angle
(`tr.minSeen = tr.minSeen == null ? a : Math.min(tr.minSeen, a)`). -/
def cycMin (tr : RepTracker) (angle : ℚ) : ℚ :=
  match tr.minSeen with
  | none => angle
  | some m => min m angle

/-- The cycle maximum after folding in this frame's angle. -/
def cycMax (tr : RepTracker) (angle : ℚ) : ℚ :=
  match tr.maxSeen with
  | none => angle
  | some m => max m angle

/-- `minExcursion = Math.max(10, Math.round((safeMax - safeMin) * 0.2))`
(`bodyQuality.ts` line 1386). -/
def minExcursionOf (safeMin safeMax : ℚ) : ℚ :=
  max 10 ((round ((safeMax - safeMin) / 5) : ℤ) : ℚ)

/-- One frame of the rep counter (`bodyQuality.ts` lines 1383–1414).
`green` is the evaluator's per-frame (raw) level test
`fb.level === "green"`.  Enter `high` from `low` when green and
`angle ≥ idealMin + 2`; exit to `low` when `angle ≤ idealMin − 8`,
counting one rep (capped at 999) exactly when the cycle excursion reaches
`minExcursion` and STRICTLY more than 800 ms passed since the last
counted rep; the min/max trackers fold in every frame's angle. -/
def repTick (idealMin safeMin safeMax : ℚ) (green : Bool) (angle : ℚ) (now : ℕ)
    (st : RepCountState) : RepCountState :=
  match st.tracker.phase with
  | RepPhase.low =>
    if green = true ∧ idealMin + 2 ≤ angle then
      { st with tracker := ⟨RepPhase.high, some (cycMin st.tracker angle), some (cycMax st.tracker angle)⟩ }
    else
      { st with tracker := ⟨RepPhase.low, some (cycMin st.tracker angle), some (cycMax st.tracker angle)⟩ }
  | RepPhase.high =>
    if angle ≤ idealMin - 8 then
      if minExcursionOf safeMin safeMax ≤ cycMax st.tracker angle - cycMin st.tracker angle ∧
          800 < now - st.repLastAt then
        { tracker := ⟨RepPhase.low, none, none⟩, repLastAt := now,
          repsCompleted := min (st.repsCompleted + 1) 999 }
      else
        { st with tracker := ⟨RepPhase.low, none, none⟩ }
    else
      { st with tracker := ⟨RepPhase.high, some (cycMin st.tracker angle), some (cycMax st.tracker angle)⟩ }

/-- Claim C4 (counterexample): the rep-count guard is NOT plain
"excursion ≥ 20% of safe span".  With safe span 203 − 150 = 53 and ideal
minimum 169 (enter ≥ 171, exit ≤ 161): a green frame at 171° (10 s, checked
against the embedded evaluator) enters `high`; a frame at 160.3° exits with
excursion 10.7, which satisfies the claimed guard (20% of 53 = 10.6) and
the ≥800 ms guard (11 s vs never), yet the code counts NO rep because its
threshold is `max(10, round(0.2·53)) = 11 > 10.7`. -/
theorem rep_excursion_cex :
    (evaluateByAngle 171 (some 90) ⟨169, 195, 150, 203, some 55⟩ (some 15)
        kneeCoaching).level = Level.green ∧
    (repTick 169 150 203 false (1603/10) 11000
        (repTick 169 150 203
          (decide ((evaluateByAngle 171 (some 90) ⟨169, 195, 150, 203, some 55⟩ (some 15)
            kneeCoaching).level = Level.green))
          171 10000 ⟨⟨RepPhase.low, none, none⟩, 0, 0⟩)).repsCompleted = 0 ∧
    (repTick 169 150 203 false (1603/10) 11000
        (repTick 169 150 203
          (decide ((evaluateByAngle 171 (some 90) ⟨169, 195, 150, 203, some 55⟩ (some 15)
            kneeCoaching).level = Level.green))
          171 10000 ⟨⟨RepPhase.low, none, none⟩, 0, 0⟩)).tracker.phase = RepPhase.low ∧
    ((203 - 150 : ℚ) / 5 ≤ 171 - 1603/10) ∧
    (800 < 11000 - 0) := by
  refine ⟨?_, ?_, ?_, by norm_num, by norm_num⟩ <;>
    norm_num [repTick, evaluateByAngle, cycMin, cycMax, minExcursionOf, round_eq,
      deviationFromSafeRange, kneeCoaching]
/-- Reduction of `repTick` in the `low` phase. -/
theorem repTick_low_eq (imin smin smax : ℚ) (green : Bool) (angle : ℚ) (now : ℕ)
    (mns mxs : Option ℚ) (last reps : ℕ) :
    repTick imin smin smax green angle now ⟨⟨RepPhase.low, mns, mxs⟩, last, reps⟩ =
      (if green = true ∧ imin + 2 ≤ angle then
        ⟨⟨RepPhase.high, some (cycMin ⟨RepPhase.low, mns, mxs⟩ angle),
          some (cycMax ⟨RepPhase.low, mns, mxs⟩ angle)⟩, last, reps⟩
      else
        ⟨⟨RepPhase.low, some (cycMin ⟨RepPhase.low, mns, mxs⟩ angle),
          some (cycMax ⟨RepPhase.low, mns, mxs⟩ angle)⟩, last, reps⟩) := rfl

/-- Reduction of `repTick` in the `high` phase on an exit frame. -/
theorem repTick_high_exit_eq (imin smin smax : ℚ) (green : Bool) (angle : ℚ) (now : ℕ)
    (mns mxs : Option ℚ) (last reps : ℕ) (hexit : angle ≤ imin - 8) :
    repTick imin smin smax green angle now ⟨⟨RepPhase.high, mns, mxs⟩, last, reps⟩ =
      (if minExcursionOf smin smax ≤
            cycMax ⟨RepPhase.high, mns, mxs⟩ angle - cycMin ⟨RepPhase.high, mns, mxs⟩ angle ∧
          800 < now - last then
        ⟨⟨RepPhase.low, none, none⟩, now, min (reps + 1) 999⟩
      else
        ⟨⟨RepPhase.low, none, none⟩, last, reps⟩) := by
  show (if angle ≤ imin - 8 then _ else _) = _
  rw [if_pos hexit]

/-- Reduction of `repTick` in the `high` phase on a non-exit frame. -/
theorem repTick_high_stay_eq (imin smin smax : ℚ) (green : Bool) (angle : ℚ) (now : ℕ)
    (mns mxs : Option ℚ) (last reps : ℕ) (hstay : ¬ angle ≤ imin - 8) :
    repTick imin smin smax green angle now ⟨⟨RepPhase.high, mns, mxs⟩, last, reps⟩ =
      ⟨⟨RepPhase.high, some (cycMin ⟨RepPhase.high, mns, mxs⟩ angle),
        some (cycMax ⟨RepPhase.high, mns, mxs⟩ angle)⟩, last, reps⟩ := by
  show (if angle ≤ imin - 8 then _ else _) = _
  rw [if_neg hstay]

/-- Claim C4 (amended): per frame, the tracker enters `high` from `low`
exactly when the raw per-frame level is green and the angle is at least
`idealMin + 2`; from `high`, a frame at or below `idealMin − 8` always
returns to `low` with cleared min/max trackers and counts exactly one rep
if and only if the cycle excursion is at least
`max(10°, round(20% of the safe span))` and STRICTLY more than 800 ms have
passed since the last counted rep; any other frame leaves the count
unchanged, and the count never decreases. -/
theorem rep_counter_cycle (imin smin smax : ℚ) (green : Bool) (angle : ℚ) (now : ℕ)
    (st : RepCountState) :
    (st.tracker.phase = RepPhase.low →
      (((repTick imin smin smax green angle now st).tracker.phase = RepPhase.high) ↔
        (green = true ∧ imin + 2 ≤ angle)) ∧
      (repTick imin smin smax green angle now st).repsCompleted = st.repsCompleted) ∧
    (st.tracker.phase = RepPhase.high → angle ≤ imin - 8 → st.repsCompleted ≤ 998 →
      (repTick imin smin smax green angle now st).tracker.phase = RepPhase.low ∧
      (repTick imin smin smax green angle now st).tracker.minSeen = none ∧
      (repTick imin smin smax green angle now st).tracker.maxSeen = none ∧
      (((repTick imin smin smax green angle now st).repsCompleted = st.repsCompleted + 1) ↔
        (minExcursionOf smin smax ≤ cycMax st.tracker angle - cycMin st.tracker angle ∧
          800 < now - st.repLastAt))) ∧
    (st.tracker.phase = RepPhase.high → ¬ (angle ≤ imin - 8) →
      (repTick imin smin smax green angle now st).repsCompleted = st.repsCompleted ∧
      (repTick imin smin smax green angle now st).tracker.phase = RepPhase.high) ∧
    (st.repsCompleted ≤ 999 →
      st.repsCompleted ≤ (repTick imin smin smax green angle now st).repsCompleted) := by
  rcases st with ⟨⟨ph, mns, mxs⟩, last, reps⟩
  cases ph with
  | low =>
    refine ⟨fun _ => ⟨?_, ?_⟩, fun h => absurd h (by simp), fun h => absurd h (by simp), ?_⟩
    · rw [repTick_low_eq]
      split_ifs with hc
      · simpa using hc
      · simpa using hc
    · rw [repTick_low_eq]
      split_ifs <;> rfl
    · intro _
      rw [repTick_low_eq]
      split_ifs <;> simp
  | high =>
    refine ⟨fun h => absurd h (by simp), fun _ hexit hcap => ?_, fun _ hstay => ?_, ?_⟩
    · rw [repTick_high_exit_eq imin smin smax green angle now mns mxs last reps hexit]
      simp only at hcap
      split_ifs with hok
      · refine ⟨rfl, rfl, rfl, ?_⟩
        simp only [min_eq_left (by omega : reps + 1 ≤ 999)]
        simpa using hok
      · refine ⟨rfl, rfl, rfl, ?_⟩
        show reps = reps + 1 ↔ _
        constructor
        · intro habs
          exact absurd habs (by omega)
        · intro hc
          exact absurd hc hok
    · rw [repTick_high_stay_eq imin smin smax green angle now mns mxs last reps hstay]
      exact ⟨rfl, rfl⟩
    · intro hcap
      simp only at hcap
      by_cases hexit : angle ≤ imin - 8
      · rw [repTick_high_exit_eq imin smin smax green angle now mns mxs last reps hexit]
        split_ifs
        · show reps ≤ min (reps + 1) 999
          omega
        · exact le_refl _
      · rw [repTick_high_stay_eq imin smin smax green angle now mns mxs last reps hexit]

/-- Claim C4 witness: from `high` with cycle min 150 / max 180, ideal
minimum 162 and safe band `[150, 185]` (minimum excursion
`max(10, round(7)) = 10`), an exit frame at 154° at 2000 ms with the last
rep at 1000 ms counts exactly one rep: 5 becomes 6. -/
theorem rep_counter_cycle_witness :
    ((⟨⟨RepPhase.high, some 150, some 180⟩, 1000, 5⟩ : RepCountState).tracker.phase =
        RepPhase.high ∧
      (154 : ℚ) ≤ 162 - 8 ∧
      (⟨⟨RepPhase.high, some 150, some 180⟩, 1000, 5⟩ : RepCountState).repsCompleted ≤ 998) ∧
    (repTick 162 150 185 false 154 2000
        ⟨⟨RepPhase.high, some 150, some 180⟩, 1000, 5⟩).tracker.phase = RepPhase.low ∧
    (repTick 162 150 185 false 154 2000
        ⟨⟨RepPhase.high, some 150, some 180⟩, 1000, 5⟩).repsCompleted = 6 := by
  refine ⟨⟨rfl, by norm_num, by norm_num⟩, ?_, ?_⟩
  · exact ((rep_counter_cycle 162 150 185 false 154 2000
      ⟨⟨RepPhase.high, some 150, some 180⟩, 1000, 5⟩).2.1 rfl (by norm_num) (by norm_num)).1
  · have h := ((rep_counter_cycle 162 150 185 false 154 2000
      ⟨⟨RepPhase.high, some 150, some 180⟩, 1000, 5⟩).2.1 rfl (by norm_num) (by norm_num)).2.2.2
    rw [h.mpr]
    constructor
    · norm_num [minExcursionOf, cycMin, cycMax, round_eq]
    · norm_num

/-- Claim C8 witness: the bound theorem applied to two appends on an empty
event log. -/
theorem log_buffers_bounded_witness :
    ([] : List Event).length ≤ 501 ∧
    (([evStart, evStart] : List Event).foldl logEvent []).length ≤ 501 :=
  ⟨by simp, log_buffers_bounded.1 [] [evStart, evStart] (by simp)⟩
